import Mathlib

/-!
# Komodo runtime (`src/runtimes/cpp/runtime.h`): values, stack, syscalls

A shallow embedding of the C++ runtime header.  `src/program.cpp` carries its own
copies of `DataType`, `DataTypeToString`, `ValueDerefException`, `Value::AsI64` and
`Interpreter::PushStack`; the definitions below embed both.

Conventions of the embedding.

* A C++ expression evaluates to an `Eval`: it returns, throws, or has undefined
  behaviour.  A member function that changes state yields an `Exec`, which also
  carries the state reached and knows about `std::exit`.
* `std::vector<Value>` is a `List Value` whose LAST element is `back()`.
* An object member that no constructor wrote is *indeterminate*; this is explicit in
  the `Value` model because `Value() {}` writes nothing.  Copying a `Value`
  (`push_back`, `auto value = stack.back()`) copies the modelled state as it is.
* `std::bad_alloc` from `push_back` is outside the model.
-/

namespace Komodo

/-! ## Primitive types -/

/-- The type `typedef int64_t KomodoI64;`: a signed 64-bit integer. -/
abbrev KomodoI64 : Type := { n : Int // -(2 ^ 63) ≤ n ∧ n < 2 ^ 63 }

/-- The type `typedef bool KomodoBool;`. -/
abbrev KomodoBool : Type := Bool

/-- The enumeration `enum class DataType { I64, Bool };`. -/
inductive DataType where
  | I64
  | Bool
  deriving DecidableEq, Repr

/-- The enumerator values of `DataType` (`I64 = 0`, `Bool = 1`), on which `switch` works. -/
def DataType.underlying : DataType → Int
  | .I64 => 0
  | .Bool => 1

namespace Exceptions

/-- The class `ValueDerefException` with its two private fields. -/
structure ValueDerefException where
  expected : DataType
  actual : DataType
  deriving DecidableEq, Repr

end Exceptions

/-- What a `throw` in the runtime can raise: a `ValueDerefException` (the accessors) or a
`std::runtime_error` (the `default:` branch of `DataTypeToString`).  The runtime declares no
other exception class. -/
inductive Thrown where
  | ValueDerefException (e : Exceptions.ValueDerefException)
  | runtime_error (what : String)
  deriving DecidableEq, Repr

/-- Outcome of evaluating a C++ expression that changes no state. -/
inductive Eval (α : Type) where
  | returned (a : α)
  | thrown (e : Thrown)
  | undefined
  deriving DecidableEq, Repr

/-- Outcome of running a member function on a state of type `σ`: normal return with a
result, an exception leaving the function, a call of `std::exit`, or undefined behaviour. -/
inductive Exec (σ α : Type) where
  | returned (a : α) (s : σ)
  | thrown (e : Thrown) (s : σ)
  | exited (status : Int) (s : σ)
  | undefined
  deriving DecidableEq, Repr

/-- The function `std::string DataTypeToString(DataType dt)`: the `switch` over the enumerator value,
with its throwing `default:` branch. -/
def DataTypeToString (dt : DataType) : Eval String :=
  if dt.underlying = 0 then .returned "I64"
  else if dt.underlying = 1 then .returned "Bool"
  else .thrown (.runtime_error "Not Implemented")

/-- The method `ValueDerefException::GetMessage()`: the string concatenation
`"Unable to deference value to " + DataTypeToString(expected) + ". It is a " +
DataTypeToString(actual) + "."`; an exception of either call leaves the function. -/
def Exceptions.ValueDerefException.GetMessage (e : Exceptions.ValueDerefException) :
    Eval String :=
  match DataTypeToString e.expected with
  | .returned ex =>
    match DataTypeToString e.actual with
    | .returned ac => .returned ("Unable to deference value to " ++ ex ++ ". It is a " ++ ac ++ ".")
    | .thrown t => .thrown t
    | .undefined => .undefined
  | .thrown t => .thrown t
  | .undefined => .undefined

/-! ## Value -/

/-- The anonymous `union { KomodoI64 I64; KomodoBool Bool; } value;` of `Value`: which member
was written last and with what, or nothing written yet. -/
inductive Payload where
  | indeterminate
  | I64 (v : KomodoI64)
  | Bool (b : KomodoBool)
  deriving DecidableEq, Repr

/-- The member of the union that holds a value, if any. -/
def Payload.active : Payload → Option DataType
  | .indeterminate => none
  | .I64 _ => some .I64
  | .Bool _ => some .Bool

/-- The class `Value`: the union `value` and the public tag `type`; `type = none` is a tag that
was never written. -/
structure Value where
  value : Payload
  type : Option DataType
  deriving DecidableEq, Repr

namespace Value

/-- The constructor `Value() {}`: writes neither the tag nor the union. -/
def new : Value := { value := .indeterminate, type := none }

/-- The constructor `Value(KomodoI64 v) : type(DataType::I64) { value.I64 = v; }`. -/
def ofI64 (v : KomodoI64) : Value := { value := .I64 v, type := some .I64 }

/-- The constructor `Value(KomodoBool v) : type(DataType::Bool) { value.Bool = v; }`. -/
def ofBool (v : KomodoBool) : Value := { value := .Bool v, type := some .Bool }

/-- The accessor `KomodoI64 AsI64() const { return type == DataType::I64 ? value.I64 : throw
Exceptions::ValueDerefException(DataType::I64, type); }`.  Reading an indeterminate tag, or
the member `I64` of a union that does not hold it, is undefined behaviour. -/
def AsI64 (self : Value) : Eval KomodoI64 :=
  match self.type with
  | none => .undefined
  | some t =>
    if t = DataType.I64 then
      match self.value with
      | .I64 v => .returned v
      | _ => .undefined
    else .thrown (.ValueDerefException { expected := .I64, actual := t })

/-- The accessor `KomodoBool AsBool() const { return type == DataType::Bool ? value.Bool : throw
Exceptions::ValueDerefException(DataType::Bool, type); }` -/
def AsBool (self : Value) : Eval KomodoBool :=
  match self.type with
  | none => .undefined
  | some t =>
    if t = DataType.Bool then
      match self.value with
      | .Bool b => .returned b
      | _ => .undefined
    else .thrown (.ValueDerefException { expected := .Bool, actual := t })

/-- The conversion `operator KomodoI64() const { return AsI64(); }`. -/
def toKomodoI64 (self : Value) : Eval KomodoI64 := self.AsI64

/-- The conversion `operator KomodoBool() const { return AsBool(); }`. -/
def toKomodoBool (self : Value) : Eval KomodoBool := self.AsBool

end Value

/-! ## Interpreter -/

/-- The class `Interpreter`: the evaluation stack (top of stack = last element) and the
nanosecond clock reading taken by the constructor. -/
structure Interpreter where
  stack : List Value
  start : Int
  deriving DecidableEq, Repr

namespace Interpreter

/-- The constructor `Interpreter()`: an empty vector, and `start` set to the clock reading `now`. -/
def new (now : Int) : Interpreter := { stack := [], start := now }

/-- The method `void PushStack(Value value) { stack.push_back(value); }`. -/
def PushStack (self : Interpreter) (value : Value) : Interpreter :=
  { self with stack := self.stack ++ [value] }

/-- The method `Value PopStack() { auto value = stack.back(); stack.pop_back(); return value; }`.
There is no emptiness test: `back()` on an empty vector is undefined behaviour. -/
def PopStack (self : Interpreter) : Exec Interpreter Value :=
  match self.stack.getLast? with
  | none => .undefined
  | some value => .returned value { self with stack := self.stack.dropLast }

end Interpreter

/-! ## Process state and syscalls -/

/-- A line written to `std::cout`.  The only one the runtime writes is
`"Finished in " << (end - interpreter.start) / 1000000000.0 << " seconds" << std::endl`;
it is recorded with the integer `end - start` (nanoseconds), the `double` division and its
formatting being left uninterpreted. -/
inductive Line where
  | FinishedIn (elapsedNanos : Int)
  deriving DecidableEq, Repr

/-- The state a syscall can touch: the interpreter and what was written to `std::cout`. -/
structure Process where
  interpreter : Interpreter
  cout : List Line
  deriving DecidableEq, Repr

/-- The two lambdas stored in the dispatch table of `Syscall`. -/
inductive Handler where
  | Exit
  | Nop
  deriving DecidableEq, Repr

/-- A `void (*)(Interpreter &)`: `none` is the null pointer. -/
abbrev HandlerPtr : Type := Option Handler

/-- The initialiser of the `static std::unordered_map` in `Syscall`:
`{{"Exit", <exit lambda>}, {"", <empty lambda>}}`. -/
def syscallMap : List (String × HandlerPtr) :=
  [("Exit", some .Exit), ("", some .Nop)]

/-- The subscript `map[name]` of `std::unordered_map`: the mapped pointer when `name` is a key; otherwise a
value-initialised (null) pointer is inserted under `name` and returned.  The result is the
pointer together with the table afterwards. -/
def subscript (map : List (String × HandlerPtr)) (name : String) :
    HandlerPtr × List (String × HandlerPtr) :=
  match map.lookup name with
  | some p => (p, map)
  | none => (none, map ++ [(name, none)])

/-- The call `std::exit(exitcode)` takes an `int`: the conversion of a `KomodoI64` to a 32-bit signed
`int` keeps the value modulo `2 ^ 32`. -/
def toInt (n : Int) : Int := (n + 2 ^ 31) % 2 ^ 32 - 2 ^ 31

/-- Calling a handler on the interpreter.  The lambdas are written `[](auto interpreter)` and
stored as `void (*)(Interpreter &)`, so their parameter is deduced as `Interpreter &`: they
work on the caller's interpreter, not on a copy.  `now` is the clock reading the `Exit`
handler takes after the pop.

`Exit`: `auto exitcode = interpreter.PopStack().AsI64();` then the clock is read, the
`Finished in` line is written and `std::exit(exitcode)` is called. -/
def Handler.call (h : Handler) (now : Int) (p : Process) : Exec Process Unit :=
  match h with
  | .Nop => .returned () p
  | .Exit =>
    match p.interpreter.PopStack with
    | .undefined => .undefined
    | .thrown e i => .thrown e { p with interpreter := i }
    | .exited c i => .exited c { p with interpreter := i }
    | .returned value i =>
      match value.AsI64 with
      | .undefined => .undefined
      | .thrown e => .thrown e { p with interpreter := i }
      | .returned exitcode =>
        .exited (toInt exitcode.val)
          { interpreter := i, cout := p.cout ++ [Line.FinishedIn (now - i.start)] }

/-- The method `void Syscall(std::string name) { static ... map = ...; map[name](*this); }`.
Calling the null pointer that `map[name]` yields for an absent key is undefined behaviour.
The table is read from its initialiser: the only change `map[name]` can make to it is the
insertion of a null entry that is called at once, so it is the initial table whenever the
behaviour so far is defined. -/
def Syscall (name : String) (now : Int) (p : Process) : Exec Process Unit :=
  match (subscript syscallMap name).1 with
  | none => .undefined
  | some h => h.call now p

/-! ## Sequences of stack operations -/

/-- The calls `PushStack(v1); ...; PushStack(vn);` for `vs = [v1, ..., vn]`. -/
def pushAll (self : Interpreter) (vs : List Value) : Interpreter :=
  vs.foldl Interpreter.PushStack self

/-- Runs `n` successive calls of `PopStack()`, collecting the returned values in call order. -/
def popN : Nat → Interpreter → Exec Interpreter (List Value)
  | 0, self => .returned [] self
  | n + 1, self =>
    match self.PopStack with
    | .undefined => .undefined
    | .thrown e i => .thrown e i
    | .exited c i => .exited c i
    | .returned v i =>
      match popN n i with
      | .undefined => .undefined
      | .thrown e j => .thrown e j
      | .exited c j => .exited c j
      | .returned vs j => .returned (v :: vs) j

/-! ## Shared lemmas -/

/-- Popping right after a push: on a stack `s ++ [v]` the pop returns `v` and leaves `s`. -/
theorem Interpreter.PopStack_append_singleton (s : List Value) (v : Value) (start : Int) :
    Interpreter.PopStack { stack := s ++ [v], start := start }
      = .returned v { stack := s, start := start } := by
  simp [Interpreter.PopStack]

/-- A run of pushes appends the pushed values, in order, to the stack and keeps `start`. -/
theorem pushAll_eq (self : Interpreter) (vs : List Value) :
    pushAll self vs = { stack := self.stack ++ vs, start := self.start } := by
  induction vs generalizing self with
  | nil => simp [pushAll]
  | cons v vs ih =>
    have h := ih (self.PushStack v)
    simp only [pushAll, List.foldl_cons] at h ⊢
    rw [h]
    simp [Interpreter.PushStack]

/-- Popping as many values as were appended returns them last-first and restores the stack. -/
theorem popN_append (s : List Value) (start : Int) (vs : List Value) :
    popN vs.length { stack := s ++ vs, start := start }
      = .returned vs.reverse { stack := s, start := start } := by
  induction vs using List.reverseRecOn with
  | nil => simp [popN]
  | append_singleton vs v ih =>
    rw [List.length_append, List.length_singleton, ← List.append_assoc]
    simp only [popN, Interpreter.PopStack_append_singleton, ih]
    simp

/-- The conversion to `int` is the identity on the range of `int`. -/
theorem toInt_of_inRange (n : Int) (hlo : -(2 ^ 31) ≤ n) (hhi : n < 2 ^ 31) : toInt n = n := by
  unfold toInt
  rw [Int.emod_eq_of_lt (by omega) (by omega)]
  omega

/-- The subscript on the initial table: a name other than the two keys yields a null pointer
and is inserted. -/
theorem subscript_syscallMap_of_not_key (name : String) (hExit : name ≠ "Exit")
    (hEmpty : name ≠ "") :
    subscript syscallMap name = (none, syscallMap ++ [(name, none)]) := by
  have h1 : (name == "Exit") = false := by simpa using hExit
  have h2 : (name == "") = false := by simpa using hEmpty
  simp [subscript, syscallMap, List.lookup, h1, h2]

/-- The subscript on the initial table at the key `"Exit"`. -/
theorem subscript_syscallMap_Exit : (subscript syscallMap "Exit").1 = some Handler.Exit := by
  decide

/-! ## Value accessors -/

/-- C2: tag fidelity round trip.  `Value(p)` has tag `I64`, holds `p` and `AsI64` returns `p`;
`Value(b)` has tag `Bool`, holds `b` and `AsBool` returns `b`.  The constructors are total. -/
theorem Value.tag_fidelity_round_trip :
    (∀ p : KomodoI64, (Value.ofI64 p).type = some .I64 ∧ (Value.ofI64 p).value = .I64 p ∧
      (Value.ofI64 p).AsI64 = .returned p) ∧
    (∀ b : KomodoBool, (Value.ofBool b).type = some .Bool ∧ (Value.ofBool b).value = .Bool b ∧
      (Value.ofBool b).AsBool = .returned b) := by
  constructor
  · intro p
    simp [Value.ofI64, Value.AsI64]
  · intro b
    simp [Value.ofBool, Value.AsBool]

/-! ## Stack discipline -/

/-- C3: stack LIFO order.  After `PushStack(v1), ..., PushStack(vn)` the next `n` calls of
`PopStack()` all return, yield `vn, ..., v1` in that order, and leave the interpreter as it
was before the pushes. -/
theorem stack_lifo_order (self : Interpreter) (vs : List Value) :
    popN vs.length (pushAll self vs) = .returned vs.reverse self := by
  rw [pushAll_eq, popN_append]

/-- C4, counterexample: `PopStack()` on the freshly constructed interpreter raises nothing. -/
theorem PopStack_empty_not_thrown :
    ¬ ∃ e s, (Interpreter.new 0).PopStack = .thrown e s := by
  simp [Interpreter.new, Interpreter.PopStack]

/-- C4, amended: `PopStack()` has no emptiness test.  On an interpreter with an empty stack,
a freshly constructed one included, it applies `back()` to an empty vector, which is
undefined behaviour: nothing is thrown and no value or stack is returned. -/
theorem PopStack_empty_undefined (start : Int) :
    (Interpreter.new start).PopStack = .undefined ∧
    Interpreter.PopStack { stack := [], start := start } = .undefined ∧
    (∀ e s, Interpreter.PopStack { stack := [], start := start } ≠ .thrown e s) ∧
    (∀ v s, Interpreter.PopStack { stack := [], start := start } ≠ .returned v s) := by
  simp [Interpreter.new, Interpreter.PopStack]

/-- C10: pop on a non-empty stack.  On a stack `s ++ [v]`, `PopStack()` returns exactly `v`
and leaves the stack equal to `s` (one element shorter, the rest in place) and `start` as it
was. -/
theorem PopStack_nonempty (s : List Value) (v : Value) (start : Int) :
    Interpreter.PopStack { stack := s ++ [v], start := start }
      = .returned v { stack := s, start := start } ∧
    (s ++ [v]).length = s.length + 1 ∧
    (∀ i (h : i < s.length), (s ++ [v])[i]? = some s[i]) := by
  refine ⟨Interpreter.PopStack_append_singleton s v start, by simp, ?_⟩
  intro i h
  simp [List.getElem?_append_left h]

/-! ## Syscalls -/

/-- C5, counterexample: with the `I64` value `2 ^ 32` alone on the stack, `Exit` ends the
process with status `0`, not `2 ^ 32`. -/
theorem Syscall_Exit_status_not_popped_value :
    Syscall "Exit" 0 { interpreter := { stack := [Value.ofI64 ⟨2 ^ 32, by decide⟩], start := 0 },
                       cout := [] }
      = .exited 0 { interpreter := { stack := [], start := 0 }, cout := [Line.FinishedIn 0] } ∧
    ∀ q, Syscall "Exit" 0
      { interpreter := { stack := [Value.ofI64 ⟨2 ^ 32, by decide⟩], start := 0 }, cout := [] }
      ≠ .exited (2 ^ 32) q := by
  constructor
  · decide
  · intro q h
    have h0 : Syscall "Exit" 0
        { interpreter := { stack := [Value.ofI64 ⟨2 ^ 32, by decide⟩], start := 0 }, cout := [] }
        = .exited 0 { interpreter := { stack := [], start := 0 },
                      cout := [Line.FinishedIn 0] } := by decide
    rw [h0] at h
    injection h with hs _
    exact absurd hs (by decide)

/-- C5, amended: with the `I64` value `n` on top of the stack, `Syscall("Exit")` pops it,
appends exactly one `Finished in` line to the output, and calls `std::exit` with `n` converted
to `int` (so it does not return); that status is `n` itself whenever `n` fits a 32-bit
signed `int`. -/
theorem Syscall_Exit_contract (n : KomodoI64) (s : List Value) (start now : Int)
    (cout : List Line) :
    Syscall "Exit" now { interpreter := { stack := s ++ [Value.ofI64 n], start := start },
                         cout := cout }
      = .exited (toInt n.val)
          { interpreter := { stack := s, start := start },
            cout := cout ++ [Line.FinishedIn (now - start)] } ∧
    (-(2 ^ 31) ≤ n.val → n.val < 2 ^ 31 → toInt n.val = n.val) := by
  refine ⟨?_, toInt_of_inRange n.val⟩
  simp [Syscall, subscript_syscallMap_Exit, Handler.call,
    Interpreter.PopStack_append_singleton, Value.ofI64, Value.AsI64]

/-- Witness of C5 (amended) at the stack holding the single `I64` value `42`: the process
ends with status `42`. -/
theorem Syscall_Exit_contract_witness :
    Syscall "Exit" 7 { interpreter := { stack := [] ++ [Value.ofI64 ⟨42, by decide⟩], start := 3 },
                       cout := [] }
      = .exited (toInt 42)
          { interpreter := { stack := [], start := 3 }, cout := [] ++ [Line.FinishedIn (7 - 3)] } ∧
    toInt 42 = 42 :=
  ⟨(Syscall_Exit_contract ⟨42, by decide⟩ [] 3 7 []).1,
   (Syscall_Exit_contract ⟨42, by decide⟩ [] 3 7 []).2 (by decide) (by decide)⟩

/-- C6: exit type-check.  When the value on top of the stack has tag `Bool`, `Syscall("Exit")`
throws the `ValueDerefException` with `expected = I64` and `actual = Bool`; the output is
unchanged (no `Finished in` line) and `std::exit` is not called. -/
theorem Syscall_Exit_type_check (v : Value) (s : List Value) (start now : Int)
    (cout : List Line) (hv : v.type = some .Bool) :
    Syscall "Exit" now { interpreter := { stack := s ++ [v], start := start }, cout := cout }
      = .thrown (.ValueDerefException { expected := .I64, actual := .Bool })
          { interpreter := { stack := s, start := start }, cout := cout } := by
  simp [Syscall, subscript_syscallMap_Exit, Handler.call,
    Interpreter.PopStack_append_singleton, Value.AsI64, hv]

/-- Witness of C6 at the stack holding the single value `Value(true)`. -/
theorem Syscall_Exit_type_check_witness :
    Syscall "Exit" 7 { interpreter := { stack := [] ++ [Value.ofBool true], start := 3 },
                       cout := [] }
      = .thrown (.ValueDerefException { expected := .I64, actual := .Bool })
          { interpreter := { stack := [], start := 3 }, cout := [] } :=
  Syscall_Exit_type_check (Value.ofBool true) [] 3 7 [] rfl

/-- C7, counterexample: `Syscall("DoesNotExist")` does not reach the handler of the
empty-string entry and does not return. -/
theorem Syscall_unknown_not_noop :
    (subscript syscallMap "DoesNotExist").1 ≠ (subscript syscallMap "").1 ∧
    ¬ ∃ q, Syscall "DoesNotExist" 0 { interpreter := Interpreter.new 0, cout := [] }
      = .returned () q := by
  constructor
  · decide
  · have h : Syscall "DoesNotExist" 0 { interpreter := Interpreter.new 0, cout := [] }
        = .undefined := by decide
    simp [h]

/-- C7, amended: for a name that is not a key of the dispatch table, `map[name]` does not
yield the handler of the empty-string entry; it inserts a null pointer under `name` and
`Syscall` calls it, which is undefined behaviour, so that no normal return is obtained. -/
theorem Syscall_unknown_undefined (name : String) (hExit : name ≠ "Exit") (hEmpty : name ≠ "")
    (now : Int) (p : Process) :
    subscript syscallMap name = (none, syscallMap ++ [(name, none)]) ∧
    Syscall name now p = .undefined := by
  have h := subscript_syscallMap_of_not_key name hExit hEmpty
  refine ⟨h, ?_⟩
  simp [Syscall, h]

/-- Witness of C7 (amended) at the name `"DoesNotExist"`. -/
theorem Syscall_unknown_undefined_witness :
    subscript syscallMap "DoesNotExist"
      = (none, syscallMap ++ [("DoesNotExist", none)]) ∧
    Syscall "DoesNotExist" 0 { interpreter := Interpreter.new 0, cout := [] } = .undefined :=
  Syscall_unknown_undefined "DoesNotExist" (by decide) (by decide) 0
    { interpreter := Interpreter.new 0, cout := [] }

/-! ## Construction -/

/-- C8, counterexample: the argument-less constructor sets neither tag nor payload, and
neither accessor returns on the value it makes. -/
theorem Value.new_uninitialised :
    Value.new.type = none ∧ Value.new.value.active = none ∧
    ¬ ((∃ x, Value.new.AsI64 = .returned x) ∨ (∃ b, Value.new.AsBool = .returned b)) := by
  simp [Value.new, Value.AsI64, Value.AsBool, Payload.active]

/-- C8, amended: each payload constructor sets the tag and the payload together, the tag
names the union member that was written, and exactly one accessor returns, with the payload
given; the argument-less constructor writes neither, and no accessor has a defined result on
its value. -/
theorem Value.constructors_initialise :
    (∀ p : KomodoI64, (Value.ofI64 p).type = some .I64 ∧
      (Value.ofI64 p).value.active = (Value.ofI64 p).type ∧
      (Value.ofI64 p).AsI64 = .returned p ∧ ¬ ∃ b, (Value.ofI64 p).AsBool = .returned b) ∧
    (∀ b : KomodoBool, (Value.ofBool b).type = some .Bool ∧
      (Value.ofBool b).value.active = (Value.ofBool b).type ∧
      (Value.ofBool b).AsBool = .returned b ∧ ¬ ∃ x, (Value.ofBool b).AsI64 = .returned x) ∧
    (Value.new.type = none ∧ Value.new.value = .indeterminate ∧
      Value.new.AsI64 = .undefined ∧ Value.new.AsBool = .undefined) := by
  refine ⟨?_, ?_, ?_⟩
  · intro p
    simp [Value.ofI64, Value.AsI64, Value.AsBool, Payload.active]
  · intro b
    simp [Value.ofBool, Value.AsI64, Value.AsBool, Payload.active]
  · simp [Value.new, Value.AsI64, Value.AsBool]

/-! ## Error message -/

/-- C9: what `GetMessage()` returns.  For every pair of types both names are produced
(`"I64"`, `"Bool"`) and the message is `"Unable to deference value to <expected>. It is a
<actual>."`, which is never the string with `dereference` of the specification. -/
theorem GetMessage_text (e : Exceptions.ValueDerefException) :
    ∃ ex ac, DataTypeToString e.expected = .returned ex ∧
      DataTypeToString e.actual = .returned ac ∧
      (ex = "I64" ∨ ex = "Bool") ∧ (ac = "I64" ∨ ac = "Bool") ∧
      e.GetMessage
        = .returned ("Unable to deference value to " ++ ex ++ ". It is a " ++ ac ++ ".") ∧
      e.GetMessage
        ≠ .returned ("Unable to dereference value to " ++ ex ++ ". It is a " ++ ac ++ ".") := by
  obtain ⟨expected, actual⟩ := e
  cases expected <;> cases actual
  · exact ⟨"I64", "I64", by decide⟩
  · exact ⟨"I64", "Bool", by decide⟩
  · exact ⟨"Bool", "I64", by decide⟩
  · exact ⟨"Bool", "Bool", by decide⟩

/-! ## Push, the empty-name syscall, conversions -/

/-- C11: push.  `PushStack(v)` always returns and turns the stack `s` into `s ++ [v]`: the
length grows by one, `v` is the new top, every element already there keeps its index and
value, and `start` is unchanged. -/
theorem PushStack_frame (self : Interpreter) (v : Value) :
    (self.PushStack v).stack = self.stack ++ [v] ∧
    (self.PushStack v).stack.length = self.stack.length + 1 ∧
    (self.PushStack v).stack.getLast? = some v ∧
    (∀ i (h : i < self.stack.length), (self.PushStack v).stack[i]? = some self.stack[i]) ∧
    (self.PushStack v).start = self.start := by
  refine ⟨rfl, by simp [Interpreter.PushStack], by simp [Interpreter.PushStack], ?_, rfl⟩
  intro i h
  simp [Interpreter.PushStack, List.getElem?_append_left h]

/-- C12: the empty-string syscall is a no-op.  On every process state, the empty stack
included, `Syscall("")` returns normally (it neither throws nor calls `std::exit`), writes
nothing, and leaves the stack and `start` as they were. -/
theorem Syscall_empty_name_noop (now : Int) (p : Process) :
    Syscall "" now p = .returned () p ∧
    Syscall "" now { interpreter := Interpreter.new now, cout := [] }
      = .returned () { interpreter := { stack := [], start := now }, cout := [] } := by
  have h : (subscript syscallMap "").1 = some Handler.Nop := by decide
  constructor <;> simp [Syscall, h, Handler.call, Interpreter.new]

/-- C13: the implicit conversions are the checked accessors.  Converting `v` to `KomodoI64`
has the outcome of `v.AsI64()` and converting it to `KomodoBool` that of `v.AsBool()`; so a
conversion of a value whose tag is another type throws the `ValueDerefException` naming
the requested type and the tag. -/
theorem Value.conversion_eq_accessor (v : Value) :
    v.toKomodoI64 = v.AsI64 ∧ v.toKomodoBool = v.AsBool ∧
    (∀ t, v.type = some t → t ≠ .I64 →
      v.toKomodoI64 = .thrown (.ValueDerefException { expected := .I64, actual := t })) ∧
    (∀ t, v.type = some t → t ≠ .Bool →
      v.toKomodoBool = .thrown (.ValueDerefException { expected := .Bool, actual := t })) := by
  refine ⟨rfl, rfl, ?_, ?_⟩
  · intro t ht hne
    simp [Value.toKomodoI64, Value.AsI64, ht, hne]
  · intro t ht hne
    simp [Value.toKomodoBool, Value.AsBool, ht, hne]

/-- Witness of C13 at `Value(true)`: its conversion to `KomodoI64` throws. -/
theorem Value.conversion_eq_accessor_witness :
    (Value.ofBool true).toKomodoI64 = (Value.ofBool true).AsI64 ∧
    (Value.ofBool true).toKomodoI64
      = .thrown (.ValueDerefException { expected := .I64, actual := .Bool }) :=
  ⟨(Value.conversion_eq_accessor (Value.ofBool true)).1,
   (Value.conversion_eq_accessor (Value.ofBool true)).2.2.1 .Bool rfl (by decide)⟩

/-! ## The failing and the narrowing `Exit` -/

/-- C14: a failing `Exit` is not atomic.  When the value `v` on top of the stack `s ++ [v]`
has a tag `t` other than `I64`, `Syscall("Exit")` throws the deref error after the pop: the
state that reaches the caller has the stack `s`, with `v` consumed, and not `s ++ [v]`. -/
theorem Syscall_Exit_failure_after_pop (v : Value) (t : DataType) (s : List Value)
    (start now : Int) (cout : List Line) (htag : v.type = some t) (hne : t ≠ .I64) :
    Syscall "Exit" now { interpreter := { stack := s ++ [v], start := start }, cout := cout }
      = .thrown (.ValueDerefException { expected := .I64, actual := t })
          { interpreter := { stack := s, start := start }, cout := cout } ∧
    (∀ e q, Syscall "Exit" now
        { interpreter := { stack := s ++ [v], start := start }, cout := cout } = .thrown e q →
      q.interpreter.stack = s ∧ q.interpreter.stack ≠ s ++ [v]) := by
  have h : Syscall "Exit" now
      { interpreter := { stack := s ++ [v], start := start }, cout := cout }
      = .thrown (.ValueDerefException { expected := .I64, actual := t })
          { interpreter := { stack := s, start := start }, cout := cout } := by
    simp [Syscall, subscript_syscallMap_Exit, Handler.call,
      Interpreter.PopStack_append_singleton, Value.AsI64, htag, hne]
  refine ⟨h, ?_⟩
  intro e q hq
  rw [h] at hq
  injection hq with _ hs
  subst hs
  refine ⟨rfl, ?_⟩
  intro hcontra
  have hlen := congrArg List.length hcontra
  simp at hlen

/-- Witness of C14 at the stack `[Value(7), Value(false)]`: the error reaches the caller
with the stack `[Value(7)]`. -/
theorem Syscall_Exit_failure_after_pop_witness :
    Syscall "Exit" 9
        { interpreter := { stack := [Value.ofI64 ⟨7, by decide⟩] ++ [Value.ofBool false],
                           start := 2 },
          cout := [] }
      = .thrown (.ValueDerefException { expected := .I64, actual := .Bool })
          { interpreter := { stack := [Value.ofI64 ⟨7, by decide⟩], start := 2 }, cout := [] } :=
  (Syscall_Exit_failure_after_pop (Value.ofBool false) .Bool [Value.ofI64 ⟨7, by decide⟩]
    2 9 [] rfl (by decide)).1

/-- C15: exit status narrowing.  The status the `Exit` handler hands to `std::exit` for the
popped `n` lies in the range of a 32-bit signed `int` and differs from `n` by a multiple of
`2 ^ 32`; it equals `n` iff `-2 ^ 31 ≤ n < 2 ^ 31`; for `n = 2 ^ 32` it is `0`, not `n`. -/
theorem Syscall_Exit_status_narrowing (n : KomodoI64) (s : List Value) (start now : Int)
    (cout : List Line) :
    (∃ status q,
      Syscall "Exit" now { interpreter := { stack := s ++ [Value.ofI64 n], start := start },
                           cout := cout } = .exited status q ∧
      -(2 ^ 31) ≤ status ∧ status < 2 ^ 31 ∧ (status - n.val) % 2 ^ 32 = 0 ∧
      (status = n.val ↔ -(2 ^ 31) ≤ n.val ∧ n.val < 2 ^ 31)) ∧
    (∃ q, Syscall "Exit" 0
        { interpreter := { stack := [Value.ofI64 ⟨2 ^ 32, by decide⟩], start := 0 },
          cout := [] } = .exited 0 q) := by
  constructor
  · refine ⟨toInt n.val, Process.mk (Interpreter.mk s start)
        (cout ++ [Line.FinishedIn (now - start)]), ?_, ?_⟩
    · simp [Syscall, subscript_syscallMap_Exit, Handler.call,
        Interpreter.PopStack_append_singleton, Value.ofI64, Value.AsI64]
    · unfold toInt
      omega
  · exact ⟨Process.mk (Interpreter.mk [] 0) [Line.FinishedIn 0], by decide⟩

/-! ## Names of the data types -/

/-- C16: `DataTypeToString` on the closed enumeration.  It returns `"I64"` for `I64` and
`"Bool"` for `Bool`, never takes the throwing `default:` branch, maps distinct variants to
distinct names, and so `GetMessage()` returns a string for every pair of types. -/
theorem DataTypeToString_total_injective :
    DataTypeToString .I64 = .returned "I64" ∧
    DataTypeToString .Bool = .returned "Bool" ∧
    (∀ dt e, DataTypeToString dt ≠ .thrown e) ∧
    (∀ dt, DataTypeToString dt ≠ .undefined) ∧
    Function.Injective DataTypeToString ∧
    (∀ e : Exceptions.ValueDerefException, ∃ m, e.GetMessage = .returned m) := by
  refine ⟨by decide, by decide, ?_, ?_, ?_, ?_⟩
  · intro dt e
    cases dt <;> simp [DataTypeToString, DataType.underlying]
  · intro dt
    cases dt <;> simp [DataTypeToString, DataType.underlying]
  · intro a b hab
    cases a <;> cases b <;> simp [DataTypeToString, DataType.underlying] at hab ⊢
  · intro e
    obtain ⟨expected, actual⟩ := e
    cases expected <;> cases actual <;>
      simp [Exceptions.ValueDerefException.GetMessage, DataTypeToString, DataType.underlying]

end Komodo
